import Mathlib

/-!
Verification of the solar ROI projection endpoint (`src/app.py`, `calculate_roi`).

Embedding conventions:
* Python float arithmetic is modelled exactly over `ℚ`; the spec's formulas are
  stated over reals, and all claims under scrutiny are about the algorithm's
  structure (sequence lengths, running sums, first-qualifying-year selection,
  error channel), not about binary floating-point artefacts.
* Python's `round(x, 2)` (round half to even on the value) is modelled by
  `round2`, round half to even applied to `100 * x`.
* The request body is a record of optional fields (`none` = absent from JSON);
  `data['k']` on an absent key raises `KeyError`, which the handler turns into
  a 400 response, modelled by the `Except` error channel.
* Python raises `ZeroDivisionError` ("float division by zero") for float
  division by zero; in `ℚ` division is total, so the two places the source can
  divide by zero — `annual_profit / (1 + discount_rate) ** year` inside the
  loop (zero iff `1 + discount_rate = 0` and the loop runs) and
  `net_profit / capex` after it — are modelled as explicit checks producing the
  500 error the `except Exception` handler returns. The loop's intermediate
  state is discarded when an exception propagates, so hoisting the checks is
  observationally faithful.
-/

/-- Error response body and HTTP status, as produced by the two `except`
branches of `calculate_roi` (`KeyError` → 400, anything else → 500). -/
structure ErrResp where
  error : String
  status : ℕ
deriving DecidableEq, Repr

/-- The JSON request body: every field the handler reads, `none` when the key
is absent. Values are the post-coercion numbers (`float(...)` / `int(...)`). -/
structure Request where
  capex : Option ℚ
  opex : Option ℚ
  generation : Option ℚ
  tariff : Option ℚ
  lifetime : Option ℤ
  inflation_rate : Option ℚ
  discount_rate : Option ℚ
  efficiency_drift : Option ℚ
  one_time_incentive : Option ℚ
  feed_in_tariff_bonus : Option ℚ
deriving DecidableEq, Repr

/-- The success response body of `calculate_roi`. `payback_period_years` is a
JSON number (`Sum.inl`) or the sentinel string (`Sum.inr "Not achieved"`). -/
structure RoiOutput where
  capex : ℚ
  opex : ℚ
  lifetime : ℤ
  inflation_rate : ℚ
  discount_rate : ℚ
  efficiency_drift : ℚ
  annual_savings : List ℚ
  utility_costs : List ℚ
  cumulative_savings : List ℚ
  payback_period_years : ℕ ⊕ String
  roi_percent : ℚ
  total_profit : ℚ
deriving DecidableEq, Repr

/-- Effective parameter values after required-field extraction and the
optional-field defaults of lines 87-92 of `src/app.py`. -/
structure Params where
  capex : ℚ
  opex : ℚ
  generation : ℚ
  tariff : ℚ
  lifetime : ℤ
  inflation_rate : ℚ
  discount_rate : ℚ
  efficiency_drift : ℚ
  one_time_incentive : ℚ
  feed_in_tariff_bonus : ℚ
deriving DecidableEq, Repr

/-- Round half to even (the rounding Python's `round` uses on the value). -/
def rhe (x : ℚ) : ℤ :=
  if Int.fract x < 1 / 2 then ⌊x⌋
  else if 1 / 2 < Int.fract x then ⌊x⌋ + 1
  else if ⌊x⌋ % 2 = 0 then ⌊x⌋ else ⌊x⌋ + 1

/-- `round(x, 2)` of the source: round to two decimal places. -/
def round2 (x : ℚ) : ℚ := (rhe (x * 100) : ℚ) / 100

/-- Mutable state of the year loop (lines 94-101 of `src/app.py`). -/
structure LoopState where
  annual_savings : List ℚ
  utility_costs : List ℚ
  cumulative_savings : List ℚ
  total_discounted_savings : ℚ
  cumulative : ℚ
  payback_year : Option ℕ
deriving DecidableEq, Repr

/-- Initial loop state (lines 94-101). -/
def initState : LoopState :=
  { annual_savings := []
    utility_costs := []
    cumulative_savings := []
    total_discounted_savings := 0
    cumulative := 0
    payback_year := none }

/-- Python truthiness of the `payback_year` variable: `None` and `0` are
falsy (`if not payback_year` on line 118, `if payback_year` on line 134). -/
def paybackTruthy : Option ℕ → Bool
  | none => false
  | some y => y != 0

/-- One iteration of the year loop, lines 103-119 of `src/app.py`.
`current_generation` is never reassigned, so it is `p.generation`. -/
def loopBody (p : Params) (year : ℕ) (st : LoopState) : LoopState :=
  let degraded_gen := p.generation * (1 - p.efficiency_drift) ^ (year - 1)
  let effective_tariff := p.tariff + p.feed_in_tariff_bonus
  let annual_revenue := degraded_gen * effective_tariff
  let annual_profit := annual_revenue - p.opex
  let inflated_utility_cost :=
    p.tariff * degraded_gen * (1 + p.inflation_rate) ^ (year - 1)
  let discounted_profit := annual_profit / (1 + p.discount_rate) ^ year
  let cumulative := st.cumulative + annual_profit
  { annual_savings := st.annual_savings ++ [round2 annual_profit]
    utility_costs := st.utility_costs ++ [round2 inflated_utility_cost]
    cumulative_savings := st.cumulative_savings ++ [round2 cumulative]
    total_discounted_savings := st.total_discounted_savings + discounted_profit
    cumulative := cumulative
    payback_year :=
      if paybackTruthy st.payback_year = false ∧
          p.capex - p.one_time_incentive ≤ cumulative then
        some year
      else st.payback_year }

/-- State after the loop has processed years `1, 2, ..., m`
(`for year in range(1, lifetime + 1)` runs exactly these when
`m = lifetime.toNat`). -/
def stateAt (p : Params) (m : ℕ) : LoopState :=
  (List.range' 1 m).foldl (fun st y => loopBody p y st) initState

/-- The full loop of lines 103-119: years `1 .. lifetime` (empty when
`lifetime ≤ 0`, as `range(1, lifetime + 1)` is then empty). -/
def runLoop (p : Params) : LoopState := stateAt p p.lifetime.toNat

/-- Rendering of `payback_year if payback_year else "Not achieved"`
(line 134): a truthy int renders as the number, otherwise the sentinel. -/
def paybackRender : Option ℕ → ℕ ⊕ String
  | none => Sum.inr "Not achieved"
  | some y => if y = 0 then Sum.inr "Not achieved" else Sum.inl y

/-- Lines 121-137: the post-loop scalars and the success JSON body. -/
def buildOutput (p : Params) : RoiOutput :=
  let st := runLoop p
  let net_profit := st.cumulative - p.capex + p.one_time_incentive
  let roi_percent := net_profit / p.capex * 100
  { capex := p.capex
    opex := p.opex
    lifetime := p.lifetime
    inflation_rate := p.inflation_rate
    discount_rate := p.discount_rate
    efficiency_drift := p.efficiency_drift
    annual_savings := st.annual_savings
    utility_costs := st.utility_costs
    cumulative_savings := st.cumulative_savings
    payback_period_years := paybackRender st.payback_year
    roi_percent := round2 roi_percent
    total_profit := round2 net_profit }

/-- `data['name']` for a required field: a present value, or the `KeyError`
path of lines 139-140 (`{"error": f"Missing field: ..."}, 400`). -/
def require (name : String) : Option ℚ → Except ErrResp ℚ
  | some v => Except.ok v
  | none => Except.error { error := "Missing field: " ++ name, status := 400 }

/-- The 500 response produced by `except Exception` (lines 141-142) when a
float division by zero occurs. -/
def dbzError : ErrResp := { error := "float division by zero", status := 500 }

/-- The `/roi` handler `calculate_roi` of `src/app.py`, lines 78-142.
The in-loop division `annual_profit / (1 + discount_rate) ** year` raises
exactly when the loop runs (`1 ≤ lifetime`) and `1 + discount_rate = 0`;
the post-loop `net_profit / capex` raises exactly when `capex = 0`. Both
yield the same 500 response, and an exception discards the loop's local
state, so the checks are placed before the (pure) loop result is used. -/
def calculate_roi (data : Request) : Except ErrResp RoiOutput := do
  let capex ← require "capex" data.capex
  let opex ← require "opex" data.opex
  let generation ← require "generation" data.generation
  let tariff ← require "tariff" data.tariff
  let p : Params :=
    { capex := capex
      opex := opex
      generation := generation
      tariff := tariff
      lifetime := data.lifetime.getD 25
      inflation_rate := data.inflation_rate.getD 0.022
      discount_rate := data.discount_rate.getD 0.04
      efficiency_drift := data.efficiency_drift.getD 0.005
      one_time_incentive := data.one_time_incentive.getD 0
      feed_in_tariff_bonus := data.feed_in_tariff_bonus.getD 0 }
  if 1 ≤ p.lifetime ∧ 1 + p.discount_rate = 0 then Except.error dbzError
  else if p.capex = 0 then Except.error dbzError
  else Except.ok (buildOutput p)

/-- A request whose four required fields are present. Every valid input is of
this shape. -/
def mkRequest (capex opex generation tariff : ℚ) (lifetime : Option ℤ)
    (inflation_rate discount_rate efficiency_drift
      one_time_incentive feed_in_tariff_bonus : Option ℚ) : Request :=
  { capex := some capex
    opex := some opex
    generation := some generation
    tariff := some tariff
    lifetime := lifetime
    inflation_rate := inflation_rate
    discount_rate := discount_rate
    efficiency_drift := efficiency_drift
    one_time_incentive := one_time_incentive
    feed_in_tariff_bonus := feed_in_tariff_bonus }

/-- The effective parameters of a `mkRequest` input, with defaults applied. -/
def mkParams (capex opex generation tariff : ℚ) (lifetime : Option ℤ)
    (inflation_rate discount_rate efficiency_drift
      one_time_incentive feed_in_tariff_bonus : Option ℚ) : Params :=
  { capex := capex
    opex := opex
    generation := generation
    tariff := tariff
    lifetime := lifetime.getD 25
    inflation_rate := inflation_rate.getD 0.022
    discount_rate := discount_rate.getD 0.04
    efficiency_drift := efficiency_drift.getD 0.005
    one_time_incentive := one_time_incentive.getD 0
    feed_in_tariff_bonus := feed_in_tariff_bonus.getD 0 }

/-- Closed form of `annual_profit` in year `year` (lines 104-107). -/
def annualProfit (p : Params) (year : ℕ) : ℚ :=
  p.generation * (1 - p.efficiency_drift) ^ (year - 1) *
    (p.tariff + p.feed_in_tariff_bonus) - p.opex

/-- Closed form of `inflated_utility_cost` in year `year` (line 108). -/
def utilityCost (p : Params) (year : ℕ) : ℚ :=
  p.tariff * (p.generation * (1 - p.efficiency_drift) ^ (year - 1)) *
    (1 + p.inflation_rate) ^ (year - 1)

/-- The unrounded running variable `cumulative` after year `m`: the sum of
the exact annual profits of years `1 .. m`. -/
def cumProfit (p : Params) : ℕ → ℚ
  | 0 => 0
  | m + 1 => cumProfit p m + annualProfit p (m + 1)

/-- The running variable `total_discounted_savings` after year `m`. -/
def totalDisc (p : Params) : ℕ → ℚ
  | 0 => 0
  | m + 1 => totalDisc p m + annualProfit p (m + 1) / (1 + p.discount_rate) ^ (m + 1)

/-- The first year in `1 .. m` whose (unrounded) cumulative profit reaches
`capex - one_time_incentive`, if any: the value of `payback_year` after the
loop has processed years `1 .. m`. -/
def firstPayback (p : Params) : ℕ → Option ℕ
  | 0 => none
  | m + 1 =>
    match firstPayback p m with
    | some y => some y
    | none =>
      if p.capex - p.one_time_incentive ≤ cumProfit p (m + 1) then some (m + 1)
      else none

/-! ### Rounding lemmas -/

theorem rhe_eq_of {z : ℚ} {k : ℤ} (h1 : (k : ℚ) - 1 / 2 < z) (h2 : z < (k : ℚ) + 1 / 2) :
    rhe z = k := by
  rcases le_or_lt (k : ℚ) z with hk | hk
  · have hf : ⌊z⌋ = k := Int.floor_eq_iff.mpr ⟨hk, by linarith⟩
    have hfr : Int.fract z < 1 / 2 := by
      have hs := Int.self_sub_floor z
      rw [hf] at hs
      linarith
    rw [rhe, if_pos hfr, hf]
  · have hf : ⌊z⌋ = k - 1 := by
      apply Int.floor_eq_iff.mpr
      constructor
      · push_cast
        linarith
      · push_cast
        linarith
    have hfr : 1 / 2 < Int.fract z := by
      have hs := Int.self_sub_floor z
      rw [hf] at hs
      push_cast at hs
      linarith
    rw [rhe, if_neg (by linarith), if_pos hfr, hf]
    ring

theorem round2_eq_of {x : ℚ} {k : ℤ} (h1 : (k : ℚ) - 1 / 2 < x * 100)
    (h2 : x * 100 < (k : ℚ) + 1 / 2) : round2 x = (k : ℚ) / 100 := by
  rw [round2, rhe_eq_of h1 h2]

theorem abs_rhe_sub_le (z : ℚ) : |(rhe z : ℚ) - z| ≤ 1 / 2 := by
  have h0 : (⌊z⌋ : ℚ) ≤ z := Int.floor_le z
  have h1 : z < ⌊z⌋ + 1 := Int.lt_floor_add_one z
  have hs := Int.self_sub_floor z
  rw [rhe]
  split_ifs with ha hb hc
  · rw [abs_le]
    constructor <;> linarith
  · rw [abs_le]
    push_cast
    constructor <;> linarith
  · have : Int.fract z = 1 / 2 := le_antisymm (not_lt.mp hb) (not_lt.mp ha)
    rw [abs_le]
    constructor <;> linarith
  · have : Int.fract z = 1 / 2 := le_antisymm (not_lt.mp hb) (not_lt.mp ha)
    rw [abs_le]
    push_cast
    constructor <;> linarith

theorem abs_round2_sub_le (x : ℚ) : |round2 x - x| ≤ 1 / 200 := by
  have h := abs_rhe_sub_le (x * 100)
  have he : round2 x - x = ((rhe (x * 100) : ℚ) - x * 100) / 100 := by
    rw [round2]
    ring
  rw [he, abs_div, abs_of_pos (by norm_num : (0 : ℚ) < 100)]
  rw [show (1 : ℚ) / 200 = (1 / 2) / 100 by norm_num]
  exact div_le_div_of_nonneg_right h (by norm_num) |>.trans_eq rfl

theorem round2_lt_round2 {x y : ℚ} (h : x + 1 / 50 ≤ y) : round2 x < round2 y := by
  have hx := abs_le.mp (abs_round2_sub_le x)
  have hy := abs_le.mp (abs_round2_sub_le y)
  linarith [hx.1, hx.2, hy.1, hy.2]

/-! ### First-qualifying-year lemmas -/

theorem firstPayback_pos {p : Params} {m y : ℕ} (h : firstPayback p m = some y) :
    1 ≤ y := by
  induction m with
  | zero => simp [firstPayback] at h
  | succ m ih =>
    rw [firstPayback] at h
    cases hm : firstPayback p m with
    | some z =>
      rw [hm] at h
      cases h
      exact ih hm
    | none =>
      rw [hm] at h
      by_cases hc : p.capex - p.one_time_incentive ≤ cumProfit p (m + 1)
      · rw [if_pos hc] at h
        cases h
        omega
      · rw [if_neg hc] at h
        cases h

theorem firstPayback_eq_none_iff {p : Params} {m : ℕ} :
    firstPayback p m = none ↔
      ∀ y, 1 ≤ y → y ≤ m →
        cumProfit p y < p.capex - p.one_time_incentive := by
  induction m with
  | zero =>
    simp only [firstPayback, true_iff]
    intro y h1 h2
    omega
  | succ m ih =>
    rw [firstPayback]
    cases hm : firstPayback p m with
    | some z =>
      simp only [reduceCtorEq, false_iff, not_forall]
      have hz := ih.not.mp (by rw [hm]; simp)
      push_neg at hz
      obtain ⟨y, h1, h2, h3⟩ := hz
      exact ⟨y, h1, by omega, not_lt.mpr h3⟩
    | none =>
      have hall := ih.mp hm
      constructor
      · intro h y h1 h2
        by_cases hy : y ≤ m
        · exact hall y h1 hy
        · have : y = m + 1 := by omega
          subst this
          by_cases hc : p.capex - p.one_time_incentive ≤ cumProfit p (m + 1)
          · rw [if_pos hc] at h
            cases h
          · exact not_le.mp hc
      · intro h
        rw [if_neg (not_le.mpr (h (m + 1) (by omega) (by omega)))]

theorem firstPayback_spec {p : Params} {m y : ℕ} (h : firstPayback p m = some y) :
    1 ≤ y ∧ y ≤ m ∧ p.capex - p.one_time_incentive ≤ cumProfit p y ∧
      ∀ z, 1 ≤ z → z < y → cumProfit p z < p.capex - p.one_time_incentive := by
  induction m with
  | zero => simp [firstPayback] at h
  | succ m ih =>
    rw [firstPayback] at h
    cases hm : firstPayback p m with
    | some z =>
      rw [hm] at h
      cases h
      obtain ⟨a, b, c, d⟩ := ih hm
      exact ⟨a, by omega, c, d⟩
    | none =>
      rw [hm] at h
      by_cases hc : p.capex - p.one_time_incentive ≤ cumProfit p (m + 1)
      · rw [if_pos hc] at h
        cases h
        refine ⟨by omega, by omega, hc, ?_⟩
        intro z h1 h2
        exact firstPayback_eq_none_iff.mp hm z h1 (by omega)
      · rw [if_neg hc] at h
        cases h

theorem firstPayback_eq_some_iff {p : Params} {m y : ℕ} :
    firstPayback p m = some y ↔
      1 ≤ y ∧ y ≤ m ∧ p.capex - p.one_time_incentive ≤ cumProfit p y ∧
        ∀ z, 1 ≤ z → z < y → cumProfit p z < p.capex - p.one_time_incentive := by
  constructor
  · exact firstPayback_spec
  · rintro ⟨h1, h2, h3, h4⟩
    cases hm : firstPayback p m with
    | none =>
      exact absurd h3 (not_le.mpr (firstPayback_eq_none_iff.mp hm y h1 h2))
    | some z =>
      obtain ⟨a, b, c, d⟩ := firstPayback_spec hm
      rcases lt_trichotomy z y with hzy | hzy | hzy
      · exact absurd c (not_le.mpr (h4 z a hzy))
      · rw [hzy]
      · exact absurd h3 (not_le.mpr (d y h1 hzy))

/-! ### Closed form of the loop state -/

theorem stateAt_succ (p : Params) (m : ℕ) :
    stateAt p (m + 1) = loopBody p (m + 1) (stateAt p m) := by
  rw [stateAt, stateAt, List.range'_concat, List.foldl_append,
    Nat.one_mul, Nat.add_comm 1 m]
  rfl

theorem stateAt_spec (p : Params) (m : ℕ) :
    stateAt p m =
      { annual_savings :=
          (List.range' 1 m).map fun y => round2 (annualProfit p y)
        utility_costs :=
          (List.range' 1 m).map fun y => round2 (utilityCost p y)
        cumulative_savings :=
          (List.range' 1 m).map fun y => round2 (cumProfit p y)
        total_discounted_savings := totalDisc p m
        cumulative := cumProfit p m
        payback_year := firstPayback p m } := by
  induction m with
  | zero => rfl
  | succ m ih =>
    rw [stateAt_succ, ih, loopBody]
    simp only [List.range'_concat, List.map_append, List.map_cons, List.map_nil,
      Nat.one_mul, Nat.add_comm 1 m]
    refine LoopState.mk.injEq .. |>.mpr ⟨?_, ?_, ?_, ?_, ?_, ?_⟩
    · rfl
    · rfl
    · rfl
    · rfl
    · rfl
    · cases hm : firstPayback p m with
      | none =>
        rw [firstPayback, hm]
        simp [paybackTruthy]
        rfl
      | some z =>
        have hz : 1 ≤ z := firstPayback_pos hm
        rw [firstPayback, hm]
        simp [paybackTruthy, Nat.pos_iff_ne_zero.mp hz]

theorem buildOutput_spec (p : Params) :
    buildOutput p =
      { capex := p.capex
        opex := p.opex
        lifetime := p.lifetime
        inflation_rate := p.inflation_rate
        discount_rate := p.discount_rate
        efficiency_drift := p.efficiency_drift
        annual_savings :=
          (List.range' 1 p.lifetime.toNat).map fun y => round2 (annualProfit p y)
        utility_costs :=
          (List.range' 1 p.lifetime.toNat).map fun y => round2 (utilityCost p y)
        cumulative_savings :=
          (List.range' 1 p.lifetime.toNat).map fun y => round2 (cumProfit p y)
        payback_period_years := paybackRender (firstPayback p p.lifetime.toNat)
        roi_percent :=
          round2 ((cumProfit p p.lifetime.toNat - p.capex + p.one_time_incentive)
            / p.capex * 100)
        total_profit :=
          round2 (cumProfit p p.lifetime.toNat - p.capex + p.one_time_incentive) } := by
  rw [buildOutput, runLoop, stateAt_spec]

theorem calculate_roi_mk (c o g t : ℚ) (lo : Option ℤ) (oi odr oed oin obn : Option ℚ)
    (hd : ¬(1 ≤ lo.getD 25 ∧ 1 + odr.getD 0.04 = 0)) (hc : c ≠ 0) :
    calculate_roi (mkRequest c o g t lo oi odr oed oin obn) =
      Except.ok (buildOutput (mkParams c o g t lo oi odr oed oin obn)) := by
  rw [calculate_roi, mkRequest]
  simp only [require]
  rw [mkParams]
  simp only [bind, Except.bind]
  rw [if_neg hd, if_neg hc]

theorem calculate_roi_capex_zero (o g t : ℚ) (lo : Option ℤ)
    (oi odr oed oin obn : Option ℚ) :
    calculate_roi (mkRequest 0 o g t lo oi odr oed oin obn) =
      Except.error dbzError := by
  rw [calculate_roi, mkRequest]
  simp only [require]
  simp only [bind, Except.bind]
  split_ifs <;> rfl

theorem calculate_roi_ok_inv {data : Request} {out : RoiOutput}
    (hok : calculate_roi data = Except.ok out) :
    ∃ c o g t, data.capex = some c ∧ data.opex = some o ∧
      data.generation = some g ∧ data.tariff = some t ∧
      out = buildOutput
        { capex := c
          opex := o
          generation := g
          tariff := t
          lifetime := data.lifetime.getD 25
          inflation_rate := data.inflation_rate.getD 0.022
          discount_rate := data.discount_rate.getD 0.04
          efficiency_drift := data.efficiency_drift.getD 0.005
          one_time_incentive := data.one_time_incentive.getD 0
          feed_in_tariff_bonus := data.feed_in_tariff_bonus.getD 0 } := by
  cases hcx : data.capex with
  | none => rw [calculate_roi, hcx] at hok; simp [require, bind, Except.bind] at hok
  | some c =>
    cases hox : data.opex with
    | none => rw [calculate_roi, hcx, hox] at hok; simp [require, bind, Except.bind] at hok
    | some o =>
      cases hgx : data.generation with
      | none =>
        rw [calculate_roi, hcx, hox, hgx] at hok
        simp [require, bind, Except.bind] at hok
      | some g =>
        cases htx : data.tariff with
        | none =>
          rw [calculate_roi, hcx, hox, hgx, htx] at hok
          simp [require, bind, Except.bind] at hok
        | some t =>
          rw [calculate_roi, hcx, hox, hgx, htx] at hok
          simp only [require, bind, Except.bind] at hok
          split_ifs at hok
          rw [Except.ok.injEq] at hok
          exact ⟨c, o, g, t, rfl, rfl, rfl, rfl, hok.symm⟩

/-! ### Claims -/

/-- C4: for every valid input (required fields present, `capex ≠ 0`,
`discount_rate ≠ -1`, `lifetime ≥ 1`), the three output sequences
`annual_savings`, `utility_costs` and `cumulative_savings` each have exactly
`lifetime` elements. -/
theorem C4_sequences_have_lifetime_elements (c o g t : ℚ) (lo : Option ℤ)
    (oi odr oed oin obn : Option ℚ) (hL : 1 ≤ lo.getD 25) (hc : c ≠ 0)
    (hd : 1 + odr.getD 0.04 ≠ 0) :
    ∃ out : RoiOutput,
      calculate_roi (mkRequest c o g t lo oi odr oed oin obn) = Except.ok out ∧
      (out.annual_savings.length : ℤ) = lo.getD 25 ∧
      (out.utility_costs.length : ℤ) = lo.getD 25 ∧
      (out.cumulative_savings.length : ℤ) = lo.getD 25 := by
  refine ⟨_, calculate_roi_mk c o g t lo oi odr oed oin obn (fun h => hd h.2) hc, ?_, ?_, ?_⟩ <;>
    · rw [buildOutput_spec]
      simp [mkParams, List.length_range']
      omega

/-- C4 witness: the concrete input capex=200000, opex=5000, generation=8000,
tariff=6, lifetime=25 yields sequences of 25 elements. -/
theorem C4_witness :
    ∃ out : RoiOutput,
      calculate_roi (mkRequest 200000 5000 8000 6 (some 25) none none none none none) =
        Except.ok out ∧
      (out.annual_savings.length : ℤ) = (some (25 : ℤ)).getD 25 ∧
      (out.utility_costs.length : ℤ) = (some (25 : ℤ)).getD 25 ∧
      (out.cumulative_savings.length : ℤ) = (some (25 : ℤ)).getD 25 :=
  C4_sequences_have_lifetime_elements 200000 5000 8000 6 (some 25) none none none none none
    (by decide) (by norm_num) (by norm_num [Option.getD])

/-- C10: whenever the handler returns a numeric `payback_period_years`, it is
the loop variable of the year loop — an integer by construction — and lies
between 1 and `lifetime` inclusive. -/
theorem C10_numeric_payback_is_year_in_range (data : Request) (out : RoiOutput) (y : ℕ)
    (hok : calculate_roi data = Except.ok out)
    (hy : out.payback_period_years = Sum.inl y) :
    1 ≤ y ∧ (y : ℤ) ≤ data.lifetime.getD 25 := by
  obtain ⟨c, o, g, t, -, -, -, -, hout⟩ := calculate_roi_ok_inv hok
  subst hout
  rw [buildOutput_spec] at hy
  simp only at hy
  cases hfp : firstPayback _ (data.lifetime.getD 25).toNat with
  | none => rw [hfp] at hy; simp [paybackRender] at hy
  | some z =>
    rw [hfp] at hy
    have hz := firstPayback_spec hfp
    rw [paybackRender, if_neg (by omega)] at hy
    rw [Sum.inl.injEq] at hy
    subst hy
    refine ⟨hz.1, ?_⟩
    have := hz.2.1
    omega

/-- C10 witness: a concrete run whose payback year is 2, within 1..lifetime. -/
theorem C10_witness : 1 ≤ 2 ∧ ((2 : ℕ) : ℤ) ≤
    (mkRequest 100 0 1 60 (some 2) (some 0) (some 0) (some 0) (some 0)
      (some 0)).lifetime.getD 25 := by
  refine C10_numeric_payback_is_year_in_range
    (mkRequest 100 0 1 60 (some 2) (some 0) (some 0) (some 0) (some 0) (some 0))
    (buildOutput (mkParams 100 0 1 60 (some 2) (some 0) (some 0) (some 0) (some 0) (some 0)))
    2 (calculate_roi_mk 100 0 1 60 (some 2) (some 0) (some 0) (some 0) (some 0) (some 0)
      (fun h => by norm_num [Option.getD] at h) (by norm_num)) ?_
  rw [buildOutput_spec]
  show paybackRender (firstPayback _ _) = Sum.inl 2
  have hfp : firstPayback (mkParams 100 0 1 60 (some 2) (some 0) (some 0) (some 0)
      (some 0) (some 0)) 2 = some 2 := by
    rw [firstPayback, firstPayback, firstPayback]
    norm_num [cumProfit, annualProfit, mkParams]
  rw [show ((mkParams 100 0 1 60 (some 2) (some 0) (some 0) (some 0) (some 0)
      (some 0)).lifetime.toNat) = 2 from rfl, hfp]
  rfl

/-- C8: when a required field (`capex`, `opex`, `generation`, `tariff`) is
absent, the handler fails with a 400 "Missing field" error naming the first
missing required field (in the order the source reads them), before any
projection computation; the error result carries no partial output. -/
theorem C8_missing_field_400 (data : Request)
    (h : data.capex = none ∨ data.opex = none ∨
      data.generation = none ∨ data.tariff = none) :
    (data.capex = none ∧ calculate_roi data =
        Except.error { error := "Missing field: " ++ "capex", status := 400 }) ∨
      (data.capex ≠ none ∧ data.opex = none ∧ calculate_roi data =
        Except.error { error := "Missing field: " ++ "opex", status := 400 }) ∨
      (data.capex ≠ none ∧ data.opex ≠ none ∧ data.generation = none ∧
        calculate_roi data =
          Except.error { error := "Missing field: " ++ "generation", status := 400 }) ∨
      (data.capex ≠ none ∧ data.opex ≠ none ∧ data.generation ≠ none ∧
        data.tariff = none ∧ calculate_roi data =
          Except.error { error := "Missing field: " ++ "tariff", status := 400 }) := by
  cases hcx : data.capex with
  | none =>
    left
    refine ⟨rfl, ?_⟩
    rw [calculate_roi, hcx]
    rfl
  | some c =>
    cases hox : data.opex with
    | none =>
      right; left
      refine ⟨by simp [hcx], rfl, ?_⟩
      rw [calculate_roi, hcx, hox]
      rfl
    | some o =>
      cases hgx : data.generation with
      | none =>
        right; right; left
        refine ⟨by simp [hcx], by simp [hox], rfl, ?_⟩
        rw [calculate_roi, hcx, hox, hgx]
        rfl
      | some g =>
        cases htx : data.tariff with
        | none =>
          right; right; right
          refine ⟨by simp [hcx], by simp [hox], by simp [hgx], rfl, ?_⟩
          rw [calculate_roi, hcx, hox, hgx, htx]
          rfl
        | some t =>
          rw [hcx, hox, hgx, htx] at h
          simp at h

/-- C8 witness: a request lacking only `tariff` is rejected with the 400
error naming "tariff". -/
theorem C8_witness :
    let data : Request :=
      { capex := some 200000
        opex := some 5000
        generation := some 8000
        tariff := none
        lifetime := none
        inflation_rate := none
        discount_rate := none
        efficiency_drift := none
        one_time_incentive := none
        feed_in_tariff_bonus := none }
    (data.capex = none ∧ calculate_roi data =
        Except.error { error := "Missing field: " ++ "capex", status := 400 }) ∨
      (data.capex ≠ none ∧ data.opex = none ∧ calculate_roi data =
        Except.error { error := "Missing field: " ++ "opex", status := 400 }) ∨
      (data.capex ≠ none ∧ data.opex ≠ none ∧ data.generation = none ∧
        calculate_roi data =
          Except.error { error := "Missing field: " ++ "generation", status := 400 }) ∨
      (data.capex ≠ none ∧ data.opex ≠ none ∧ data.generation ≠ none ∧
        data.tariff = none ∧ calculate_roi data =
          Except.error { error := "Missing field: " ++ "tariff", status := 400 }) :=
  C8_missing_field_400 _ (by simp)

/-- C6 (amended): an input with `capex = 0` fails explicitly — the Python
`ZeroDivisionError` of `net_profit / capex` surfaces as the 500 response
`{"error": "float division by zero"}` — and no result record (hence nothing
NaN/Infinity-like) is returned. The claim's "ValidationError / 4xx-equivalent"
part does not hold: the status is 500, not 400. -/
theorem C6_capex_zero_fails_500 (o g t : ℚ) (lo : Option ℤ)
    (oi odr oed oin obn : Option ℚ) :
    calculate_roi (mkRequest 0 o g t lo oi odr oed oin obn) =
      Except.error dbzError ∧ dbzError.status = 500 :=
  ⟨calculate_roi_capex_zero o g t lo oi odr oed oin obn, rfl⟩

/-- C6 counterexample: for the concrete input capex=0, opex=5000,
generation=8000, tariff=6, lifetime=25, the handler returns the 500
computation error, not a 400-class validation error, refuting the claim as
stated. -/
theorem C6_counterexample :
    calculate_roi (mkRequest 0 5000 8000 6 (some 25) none none none none none) =
      Except.error dbzError ∧ dbzError.status ≠ 400 :=
  ⟨calculate_roi_capex_zero 5000 8000 6 (some 25) none none none none none, by decide⟩

/-- C7 (amended): an input with `lifetime ≤ 0` (and required fields present,
`capex ≠ 0`) is NOT rejected: the handler returns a 200 success result whose
three sequences are empty, whose payback is the "Not achieved" sentinel, and
whose totals reduce to `round2 (incentive - capex)` terms. -/
theorem C7_lifetime_nonpos_returns_empty_success (c o g t : ℚ) (lt0 : ℤ)
    (oi odr oed oin obn : Option ℚ) (hL : lt0 ≤ 0) (hc : c ≠ 0) :
    ∃ out : RoiOutput,
      calculate_roi (mkRequest c o g t (some lt0) oi odr oed oin obn) =
        Except.ok out ∧
      out.annual_savings = [] ∧ out.utility_costs = [] ∧
      out.cumulative_savings = [] ∧
      out.payback_period_years = Sum.inr "Not achieved" ∧
      out.total_profit = round2 (0 - c + oin.getD 0) ∧
      out.roi_percent = round2 ((0 - c + oin.getD 0) / c * 100) := by
  refine ⟨_, calculate_roi_mk c o g t (some lt0) oi odr oed oin obn
    (fun h => absurd h.1 (by simp [Option.getD]; omega)) hc, ?_⟩
  rw [buildOutput_spec]
  have hn : ((mkParams c o g t (some lt0) oi odr oed oin obn).lifetime).toNat = 0 := by
    simp [mkParams, Option.getD]
    omega
  rw [hn]
  refine ⟨rfl, rfl, rfl, rfl, ?_, ?_⟩ <;> simp [mkParams, cumProfit, paybackRender]

/-- C7 witness: concrete input with lifetime=0 yields the empty-sequence
success result. -/
theorem C7_witness :
    ∃ out : RoiOutput,
      calculate_roi (mkRequest 200000 5000 8000 6 (some 0) none none none none none) =
        Except.ok out ∧
      out.annual_savings = [] ∧ out.utility_costs = [] ∧
      out.cumulative_savings = [] ∧
      out.payback_period_years = Sum.inr "Not achieved" ∧
      out.total_profit = round2 (0 - 200000 + (none : Option ℚ).getD 0) ∧
      out.roi_percent = round2 ((0 - 200000 + (none : Option ℚ).getD 0) / 200000 * 100) :=
  C7_lifetime_nonpos_returns_empty_success 200000 5000 8000 6 0 none none none none none
    (by decide) (by norm_num)

/-- C7 counterexample: for the concrete input capex=200000, opex=5000,
generation=8000, tariff=6, lifetime=0, the handler returns a success result
(with empty sequences and sentinel payback) instead of rejecting the request
with a validation error, refuting the claim as stated. -/
theorem C7_counterexample :
    ∃ out : RoiOutput,
      calculate_roi (mkRequest 200000 5000 8000 6 (some 0) none none none none none) =
        Except.ok out ∧ out.annual_savings = [] ∧
      out.payback_period_years = Sum.inr "Not achieved" :=
  ⟨_, calculate_roi_mk 200000 5000 8000 6 (some 0) none none none none none
    (fun h => absurd h.1 (by decide)) (by norm_num), rfl, rfl⟩

/-- C1 (amended): `payback_period_years` is the smallest year `y` in
`1..lifetime` whose UNROUNDED cumulative profit (the loop variable
`cumulative`, the running sum of exact annual profits) reaches
`capex - one_time_incentive`; if no year qualifies it is the string sentinel
"Not achieved". The original claim's condition on the rounded output value
`cumulative_savings[y-1]` does not hold (see the counterexample). -/
theorem C1_payback_first_unrounded_threshold_year (c o g t : ℚ) (lo : Option ℤ)
    (oi odr oed oin obn : Option ℚ) (hc : c ≠ 0) (hd : 1 + odr.getD 0.04 ≠ 0) :
    ∃ out : RoiOutput,
      calculate_roi (mkRequest c o g t lo oi odr oed oin obn) = Except.ok out ∧
      (out.payback_period_years = Sum.inr "Not achieved" ↔
        ∀ y : ℕ, 1 ≤ y → (y : ℤ) ≤ lo.getD 25 →
          cumProfit (mkParams c o g t lo oi odr oed oin obn) y < c - oin.getD 0) ∧
      ∀ y : ℕ,
        out.payback_period_years = Sum.inl y ↔
          1 ≤ y ∧ (y : ℤ) ≤ lo.getD 25 ∧
            c - oin.getD 0 ≤ cumProfit (mkParams c o g t lo oi odr oed oin obn) y ∧
            ∀ z : ℕ, 1 ≤ z → z < y →
              cumProfit (mkParams c o g t lo oi odr oed oin obn) z < c - oin.getD 0 := by
  refine ⟨_, calculate_roi_mk c o g t lo oi odr oed oin obn (fun h => hd h.2) hc, ?_, ?_⟩
  · rw [buildOutput_spec]
    show paybackRender _ = _ ↔ _
    cases hfp : firstPayback (mkParams c o g t lo oi odr oed oin obn)
        ((mkParams c o g t lo oi odr oed oin obn).lifetime).toNat with
    | none =>
      have hiff := firstPayback_eq_none_iff (p := mkParams c o g t lo oi odr oed oin obn)
        (m := ((mkParams c o g t lo oi odr oed oin obn).lifetime).toNat)
      rw [hfp] at hiff
      constructor
      · intro _ y h1 h2
        refine (hiff.mp rfl) y h1 ?_
        have : (mkParams c o g t lo oi odr oed oin obn).lifetime = lo.getD 25 := rfl
        omega
      · intro _
        rfl
    | some z =>
      have hz := firstPayback_spec hfp
      rw [paybackRender, if_neg (by omega)]
      constructor
      · intro habs
        exact absurd habs (by simp)
      · intro hall
        have hzL : ((z : ℕ) : ℤ) ≤ lo.getD 25 := by
          have h2 := hz.2.1
          have : (mkParams c o g t lo oi odr oed oin obn).lifetime = lo.getD 25 := rfl
          omega
        exact absurd hz.2.2.1 (not_le.mpr (hall z hz.1 hzL))
  · intro y
    rw [buildOutput_spec]
    show paybackRender _ = _ ↔ _
    have hbig := firstPayback_eq_some_iff (p := mkParams c o g t lo oi odr oed oin obn)
      (m := ((mkParams c o g t lo oi odr oed oin obn).lifetime).toNat) (y := y)
    have hL : (mkParams c o g t lo oi odr oed oin obn).lifetime = lo.getD 25 := rfl
    constructor
    · intro hy
      cases hfp : firstPayback (mkParams c o g t lo oi odr oed oin obn)
          ((mkParams c o g t lo oi odr oed oin obn).lifetime).toNat with
      | none => rw [hfp] at hy; simp [paybackRender] at hy
      | some z =>
        rw [hfp] at hy
        have hz := firstPayback_spec hfp
        rw [paybackRender, if_neg (by omega), Sum.inl.injEq] at hy
        subst hy
        obtain ⟨a1, a2, a3, a4⟩ := hbig.mp hfp
        exact ⟨a1, by omega, a3, a4⟩
    · rintro ⟨h1, h2, h3, h4⟩
      have hfp : firstPayback (mkParams c o g t lo oi odr oed oin obn)
          ((mkParams c o g t lo oi odr oed oin obn).lifetime).toNat = some y :=
        hbig.mpr ⟨h1, by omega, h3, h4⟩
      rw [hfp, paybackRender, if_neg (by omega)]

/-- C1 witness: concrete run (capex=100, opex=0, generation=1, tariff=60,
lifetime=2, zero rates): the characterization holds, with payback year 2. -/
theorem C1_witness :
    ∃ out : RoiOutput,
      calculate_roi (mkRequest 100 0 1 60 (some 2) (some 0) (some 0) (some 0) (some 0)
          (some 0)) = Except.ok out ∧
      (out.payback_period_years = Sum.inr "Not achieved" ↔
        ∀ y : ℕ, 1 ≤ y → (y : ℤ) ≤ (some (2 : ℤ)).getD 25 →
          cumProfit (mkParams 100 0 1 60 (some 2) (some 0) (some 0) (some 0) (some 0)
            (some 0)) y < 100 - (some (0 : ℚ)).getD 0) ∧
      ∀ y : ℕ,
        out.payback_period_years = Sum.inl y ↔
          1 ≤ y ∧ (y : ℤ) ≤ (some (2 : ℤ)).getD 25 ∧
            (100 : ℚ) - (some (0 : ℚ)).getD 0 ≤
              cumProfit (mkParams 100 0 1 60 (some 2) (some 0) (some 0) (some 0) (some 0)
                (some 0)) y ∧
            ∀ z : ℕ, 1 ≤ z → z < y →
              cumProfit (mkParams 100 0 1 60 (some 2) (some 0) (some 0) (some 0) (some 0)
                (some 0)) z < 100 - (some (0 : ℚ)).getD 0 :=
  C1_payback_first_unrounded_threshold_year 100 0 1 60 (some 2) (some 0) (some 0)
    (some 0) (some 0) (some 0) (by norm_num) (by norm_num [Option.getD])

/-- C1 counterexample: input capex=100, opex=0, generation=1, tariff=99.999,
lifetime=1, optional fields absent (incentive 0). The exact cumulative profit
after year 1 is 99.999 < 100, so the code reports "Not achieved"; but the
returned `cumulative_savings[0]` rounds to 100.00, which does satisfy
`cumulative_savings[y-1] >= capex - one_time_incentive` at y=1. The claim as
stated (smallest y measured on the returned, rounded sequence) is false. -/
theorem C1_counterexample :
    ∃ out : RoiOutput,
      calculate_roi (mkRequest 100 0 1 (99999/1000) (some 1) none none none none none) =
        Except.ok out ∧
      out.lifetime = 1 ∧ out.capex = 100 ∧
      out.cumulative_savings = [100] ∧
      out.capex - 0 ≤ out.cumulative_savings.getD 0 0 ∧
      out.payback_period_years = Sum.inr "Not achieved" := by
  refine ⟨_, calculate_roi_mk 100 0 1 (99999/1000) (some 1) none none none none none
    (fun h => by norm_num [Option.getD] at h) (by norm_num), ?_⟩
  rw [buildOutput_spec]
  have hn : ((mkParams 100 0 1 (99999/1000) (some 1) none none none none
      none).lifetime).toNat = 1 := rfl
  rw [hn]
  have hcum : cumProfit (mkParams 100 0 1 (99999/1000) (some 1) none none none none
      none) 1 = 99999 / 1000 := by
    norm_num [cumProfit, annualProfit, mkParams]
  have hround : round2 (99999 / 1000) = 100 := by
    rw [round2_eq_of (k := 10000) (by norm_num) (by norm_num)]
    norm_num
  have hfp : firstPayback (mkParams 100 0 1 (99999/1000) (some 1) none none none none
      none) 1 = none := by
    rw [firstPayback, firstPayback]
    rw [hcum]
    norm_num [mkParams]
  dsimp only
  refine ⟨rfl, rfl, ?_, ?_, ?_⟩
  · simp [List.range', hcum, hround]
  · simp only [List.range', List.map_cons, List.map_nil, hcum, hround, List.getD]
    norm_num [mkParams]
  · rw [hfp]
    rfl

theorem roi_round_bound (cum i cc : ℚ) (hcc : 0 < cc) :
    |round2 ((cum - cc + i) / cc * 100) - (round2 cum - cc + i) / cc * 100| ≤
      1 / 200 + 1 / (2 * cc) := by
  have h1 := abs_round2_sub_le ((cum - cc + i) / cc * 100)
  have h2 := abs_round2_sub_le cum
  have hne : cc ≠ 0 := ne_of_gt hcc
  have hEF : (cum - cc + i) / cc * 100 - (round2 cum - cc + i) / cc * 100 =
      (cum - round2 cum) * (100 / cc) := by
    field_simp
    ring
  have habs : |cum - round2 cum| ≤ 1 / 200 := by
    rw [abs_sub_comm]
    exact h2
  have hEFb : |(cum - cc + i) / cc * 100 - (round2 cum - cc + i) / cc * 100| ≤
      1 / (2 * cc) := by
    rw [hEF, abs_mul, abs_of_pos (by positivity : (0 : ℚ) < 100 / cc)]
    calc |cum - round2 cum| * (100 / cc) ≤ (1 / 200) * (100 / cc) :=
          mul_le_mul_of_nonneg_right habs (by positivity)
      _ = 1 / (2 * cc) := by
          field_simp
          ring
  have htri := abs_sub_le (round2 ((cum - cc + i) / cc * 100))
    ((cum - cc + i) / cc * 100) ((round2 cum - cc + i) / cc * 100)
  linarith

/-- C2: `roi_percent` is the 2-dp rounding of
`(cumulative - capex + one_time_incentive) / capex * 100` computed on the
exact (unrounded) cumulative profit; relative to the ROUNDED last element of
`cumulative_savings` (the value the claim names), it agrees within the
rounding tolerance `1/200 + 1/(2*capex)` (the slack of the two roundings). -/
theorem C2_roi_percent_formula (c o g t : ℚ) (lo : Option ℤ)
    (oi odr oed oin obn : Option ℚ) (hc : 0 < c) (hd : 1 + odr.getD 0.04 ≠ 0)
    (hL : 1 ≤ lo.getD 25) :
    ∃ out : RoiOutput,
      calculate_roi (mkRequest c o g t lo oi odr oed oin obn) = Except.ok out ∧
      out.roi_percent = round2
        ((cumProfit (mkParams c o g t lo oi odr oed oin obn) (lo.getD 25).toNat - c +
          oin.getD 0) / c * 100) ∧
      out.cumulative_savings.getLast? = some
        (round2 (cumProfit (mkParams c o g t lo oi odr oed oin obn) (lo.getD 25).toNat)) ∧
      |out.roi_percent -
          (round2 (cumProfit (mkParams c o g t lo oi odr oed oin obn) (lo.getD 25).toNat)
            - c + oin.getD 0) / c * 100| ≤ 1 / 200 + 1 / (2 * c) := by
  refine ⟨_, calculate_roi_mk c o g t lo oi odr oed oin obn (fun h => hd h.2)
    (ne_of_gt hc), ?_, ?_, ?_⟩
  · rw [buildOutput_spec]
    dsimp only
    rfl
  · rw [buildOutput_spec]
    dsimp only
    obtain ⟨m, hm⟩ : ∃ m, (lo.getD 25).toNat = m + 1 := ⟨(lo.getD 25).toNat - 1, by omega⟩
    rw [show ((mkParams c o g t lo oi odr oed oin obn).lifetime).toNat =
      (lo.getD 25).toNat from rfl, hm, List.range'_concat, List.map_append,
      List.map_cons, List.map_nil, List.getLast?_concat]
    rw [Nat.one_mul, Nat.add_comm 1 m]
  · rw [buildOutput_spec]
    dsimp only
    exact roi_round_bound (cumProfit (mkParams c o g t lo oi odr oed oin obn)
      (lo.getD 25).toNat) (oin.getD 0) c hc

/-- C2 witness: the characterization at the concrete input capex=200000,
opex=5000, generation=8000, tariff=6, lifetime=25, defaults elsewhere. -/
theorem C2_witness :
    ∃ out : RoiOutput,
      calculate_roi (mkRequest 200000 5000 8000 6 (some 25) none none none none none) =
        Except.ok out ∧
      out.roi_percent = round2
        ((cumProfit (mkParams 200000 5000 8000 6 (some 25) none none none none none)
          ((some (25 : ℤ)).getD 25).toNat - 200000 +
          (none : Option ℚ).getD 0) / 200000 * 100) ∧
      out.cumulative_savings.getLast? = some
        (round2 (cumProfit (mkParams 200000 5000 8000 6 (some 25) none none none none none)
          ((some (25 : ℤ)).getD 25).toNat)) ∧
      |out.roi_percent -
          (round2 (cumProfit (mkParams 200000 5000 8000 6 (some 25) none none none none
            none) ((some (25 : ℤ)).getD 25).toNat) - 200000 +
            (none : Option ℚ).getD 0) / 200000 * 100| ≤ 1 / 200 + 1 / (2 * 200000) :=
  C2_roi_percent_formula 200000 5000 8000 6 (some 25) none none none none none
    (by norm_num) (by norm_num [Option.getD]) (by decide)

/-- C3 (amended): each returned `cumulative_savings[i]` is the 2-dp rounding
of the EXACT running sum of annual profits for years `1..i+1` (the loop
variable `cumulative`), while each `annual_savings[i]` is the 2-dp rounding
of the exact annual profit of year `i+1`. The sequence elements are rounded
individually, so `cumulative_savings[i]` can differ from the running sum of
the rounded `annual_savings[0..i]` (see the counterexample). -/
theorem C3_cumulative_rounds_exact_running_sum (c o g t : ℚ) (lo : Option ℤ)
    (oi odr oed oin obn : Option ℚ) (hc : c ≠ 0) (hd : 1 + odr.getD 0.04 ≠ 0) :
    ∃ out : RoiOutput,
      calculate_roi (mkRequest c o g t lo oi odr oed oin obn) = Except.ok out ∧
      ∀ i : ℕ, i < (lo.getD 25).toNat →
        out.cumulative_savings[i]? =
          some (round2 (cumProfit (mkParams c o g t lo oi odr oed oin obn) (i + 1))) ∧
        out.annual_savings[i]? =
          some (round2 (annualProfit (mkParams c o g t lo oi odr oed oin obn) (i + 1))) := by
  refine ⟨_, calculate_roi_mk c o g t lo oi odr oed oin obn (fun h => hd h.2) hc, ?_⟩
  intro i hi
  rw [buildOutput_spec]
  dsimp only
  rw [show ((mkParams c o g t lo oi odr oed oin obn).lifetime).toNat =
    (lo.getD 25).toNat from rfl]
  rw [List.getElem?_map, List.getElem?_map, List.getElem?_range' 1 1 hi]
  rw [Nat.one_mul, Nat.add_comm 1 i]
  exact ⟨rfl, rfl⟩

/-- C3 witness: the amended characterization at the concrete input
capex=200000, opex=5000, generation=8000, tariff=6, lifetime=25. -/
theorem C3_witness :
    ∃ out : RoiOutput,
      calculate_roi (mkRequest 200000 5000 8000 6 (some 25) none none none none none) =
        Except.ok out ∧
      ∀ i : ℕ, i < ((some (25 : ℤ)).getD 25).toNat →
        out.cumulative_savings[i]? =
          some (round2 (cumProfit (mkParams 200000 5000 8000 6 (some 25) none none none
            none none) (i + 1))) ∧
        out.annual_savings[i]? =
          some (round2 (annualProfit (mkParams 200000 5000 8000 6 (some 25) none none
            none none none) (i + 1))) :=
  C3_cumulative_rounds_exact_running_sum 200000 5000 8000 6 (some 25) none none none
    none none (by norm_num) (by norm_num [Option.getD])

/-- C3 counterexample: input capex=100, opex=0, generation=1, tariff=0.004,
lifetime=2, zero rates. Both rounded annual savings are 0.00, but the second
cumulative entry is round(0.008, 2) = 0.01, so `cumulative_savings[1]` is not
the running sum of the returned (rounded) `annual_savings[0..1]`. -/
theorem C3_counterexample :
    ∃ out : RoiOutput,
      calculate_roi (mkRequest 100 0 1 (1/250) (some 2) (some 0) (some 0) (some 0)
          (some 0) (some 0)) = Except.ok out ∧
      out.annual_savings = [0, 0] ∧
      out.cumulative_savings = [0, 1/100] ∧
      out.cumulative_savings.getD 1 0 ≠
        out.annual_savings.getD 0 0 + out.annual_savings.getD 1 0 := by
  set p : Params := mkParams 100 0 1 (1/250) (some 2) (some 0) (some 0) (some 0)
    (some 0) (some 0) with hp
  have ha1 : annualProfit p 1 = 1 / 250 := by
    rw [hp]
    norm_num [annualProfit, mkParams]
  have ha2 : annualProfit p 2 = 1 / 250 := by
    rw [hp]
    norm_num [annualProfit, mkParams]
  have hc1 : cumProfit p 1 = 1 / 250 := by
    rw [cumProfit, cumProfit, ha1]
    norm_num
  have hc2 : cumProfit p 2 = 1 / 125 := by
    rw [cumProfit, hc1, ha2]
    norm_num
  have hr1 : round2 (1 / 250) = 0 := by
    rw [round2_eq_of (k := 0) (by norm_num) (by norm_num)]
    norm_num
  have hr2 : round2 (1 / 125) = 1 / 100 := by
    rw [round2_eq_of (k := 1) (by norm_num) (by norm_num)]
    norm_num
  have hn2 : p.lifetime.toNat = 2 := by
    rw [hp]
    rfl
  have hAS : (buildOutput p).annual_savings = [0, 0] := by
    rw [buildOutput_spec]
    dsimp only
    rw [hn2]
    simp only [show List.range' 1 2 = [1, 2] from rfl, List.map_cons, List.map_nil,
      ha1, ha2, hr1]
  have hCS : (buildOutput p).cumulative_savings = [0, 1/100] := by
    rw [buildOutput_spec]
    dsimp only
    rw [hn2]
    simp only [show List.range' 1 2 = [1, 2] from rfl, List.map_cons, List.map_nil,
      hc1, hc2, hr1, hr2]
  refine ⟨_, calculate_roi_mk 100 0 1 (1/250) (some 2) (some 0) (some 0) (some 0)
    (some 0) (some 0) (fun h => by norm_num [Option.getD] at h) (by norm_num),
    hAS, hCS, ?_⟩
  rw [hAS, hCS]
  norm_num [List.getD]

/-- C9: `utility_costs` does not depend on `feed_in_tariff_bonus`: two valid
inputs identical except in the bonus yield equal `utility_costs`, and each
element is the 2-dp rounding of
`tariff * degraded_generation * (1 + inflation_rate) ^ (year - 1)`. -/
theorem C9_utility_costs_independent_of_bonus (c o g t : ℚ) (lo : Option ℤ)
    (oi odr oed oin obn1 obn2 : Option ℚ) (hc : c ≠ 0) (hd : 1 + odr.getD 0.04 ≠ 0) :
    ∃ out1 out2 : RoiOutput,
      calculate_roi (mkRequest c o g t lo oi odr oed oin obn1) = Except.ok out1 ∧
      calculate_roi (mkRequest c o g t lo oi odr oed oin obn2) = Except.ok out2 ∧
      out1.utility_costs = out2.utility_costs ∧
      ∀ i : ℕ, i < (lo.getD 25).toNat →
        out1.utility_costs[i]? =
          some (round2 (utilityCost (mkParams c o g t lo oi odr oed oin obn1) (i + 1))) := by
  refine ⟨_, _, calculate_roi_mk c o g t lo oi odr oed oin obn1 (fun h => hd h.2) hc,
    calculate_roi_mk c o g t lo oi odr oed oin obn2 (fun h => hd h.2) hc, ?_, ?_⟩
  · rw [buildOutput_spec, buildOutput_spec]
    rfl
  · intro i hi
    rw [buildOutput_spec]
    dsimp only
    rw [show ((mkParams c o g t lo oi odr oed oin obn1).lifetime).toNat =
      (lo.getD 25).toNat from rfl]
    rw [List.getElem?_map, List.getElem?_range' 1 1 hi]
    rw [Nat.one_mul, Nat.add_comm 1 i]
    rfl

/-- C9 witness: concrete pair differing only in the feed-in bonus (0.5 vs
absent) with capex=200000, opex=5000, generation=8000, tariff=6, lifetime=25. -/
theorem C9_witness :
    ∃ out1 out2 : RoiOutput,
      calculate_roi (mkRequest 200000 5000 8000 6 (some 25) none none none none
        (some (1/2))) = Except.ok out1 ∧
      calculate_roi (mkRequest 200000 5000 8000 6 (some 25) none none none none none) =
        Except.ok out2 ∧
      out1.utility_costs = out2.utility_costs ∧
      ∀ i : ℕ, i < ((some (25 : ℤ)).getD 25).toNat →
        out1.utility_costs[i]? =
          some (round2 (utilityCost (mkParams 200000 5000 8000 6 (some 25) none none
            none none (some (1/2))) (i + 1))) :=
  C9_utility_costs_independent_of_bonus 200000 5000 8000 6 (some 25) none none none
    none (some (1/2)) none (by norm_num) (by norm_num [Option.getD])

/-- C5: for capex=200000, opex=5000, generation=8000, tariff=6.0, lifetime=25
with all optional fields absent (defaults inflation 0.022, discount 0.04,
drift 0.005, incentive 0, bonus 0), the projection succeeds, the first
element of `annual_savings` is exactly 43000.0, and each later element is
strictly less than its predecessor. -/
theorem C5_scenario_b_decreasing_savings :
    ∃ out : RoiOutput,
      calculate_roi (mkRequest 200000 5000 8000 6 (some 25) none none none none none) =
        Except.ok out ∧
      out.annual_savings.head? = some 43000 ∧
      List.Chain' (fun a b => b < a) out.annual_savings := by
  have hform : ∀ y : ℕ,
      annualProfit (mkParams 200000 5000 8000 6 (some 25) none none none none none) y =
        48000 * (199/200) ^ (y - 1) - 5000 := by
    intro y
    simp only [annualProfit, mkParams, Option.getD]
    norm_num
    ring
  have hap1 : annualProfit (mkParams 200000 5000 8000 6 (some 25) none none none none
      none) 1 = 43000 := by
    rw [hform]
    norm_num
  have hr43 : round2 43000 = 43000 := by
    rw [round2_eq_of (k := 4300000) (by norm_num) (by norm_num)]
    norm_num
  have key : ∀ k : ℕ, k ≤ 23 →
      round2 (annualProfit (mkParams 200000 5000 8000 6 (some 25) none none none none
        none) (k + 2)) <
      round2 (annualProfit (mkParams 200000 5000 8000 6 (some 25) none none none none
        none) (k + 1)) := by
    intro k hk
    apply round2_lt_round2
    rw [hform (k + 2), hform (k + 1)]
    rw [show (k + 2) - 1 = k + 1 from rfl, show (k + 1) - 1 = k from rfl, pow_succ]
    have hb : (199/200 : ℚ) ^ 24 ≤ (199/200) ^ k :=
      pow_le_pow_of_le_one (by norm_num) (by norm_num) (by omega)
    have h24 : (1 : ℚ) / 12000 ≤ (199/200) ^ 24 := by norm_num
    nlinarith [hb, h24]
  have hn25 : ((mkParams 200000 5000 8000 6 (some 25) none none none none
      none).lifetime).toNat = 25 := rfl
  refine ⟨_, calculate_roi_mk 200000 5000 8000 6 (some 25) none none none none none
    (fun h => by norm_num [Option.getD] at h) (by norm_num), ?_, ?_⟩
  · rw [buildOutput_spec]
    dsimp only
    rw [hn25]
    rw [show List.range' 1 25 = 1 :: List.range' 2 24 from rfl, List.map_cons,
      List.head?_cons, hap1, hr43]
  · rw [buildOutput_spec]
    dsimp only
    rw [hn25]
    rw [List.chain'_iff_get]
    intro i hi
    simp only [List.length_map, List.length_range'] at hi
    simp only [List.get_eq_getElem, List.getElem_map, List.getElem_range'_1]
    rw [show 1 + (i + 1) = i + 2 from by omega, show 1 + i = i + 1 from by omega]
    exact key i (by omega)
